import Mathlib

/-!
Shallow embedding of the civic-issue reporting core from `src/api/main.py`.

Conventions of the embedding:
* timestamps (`datetime.utcnow()`) are modelled as rationals counting seconds,
  so `(updated_at - created_at).total_seconds()` becomes plain subtraction;
* latitude/longitude floats are modelled as rationals;
* the global dict `issues_db` (insertion-ordered in Python) is an association
  list with unique keys; `d[k] = v` replaces in place or appends;
* files written to `UPLOAD_DIR` are recorded as a list of filenames in the
  server state (byte contents are irrelevant to the contracts);
* `jwt.decode` is a parameter `String → Option TokenPayload` (`none` models
  `JWTError`); disk writes are modelled as succeeding, so the
  `HTTPException(500, "... upload failed")` branches are unreachable here;
* `uuid.uuid4()` and `datetime.utcnow()` are passed in as arguments.
-/

set_option autoImplicit false

namespace Civic

/-- `class IssueCategory(str, Enum)` from `main.py`. -/
inductive IssueCategory where
  | pothole
  | streetlight
  | garbage
  | water
  | others
deriving DecidableEq, Repr

/-- `class IssueStatus(str, Enum)` from `main.py`. -/
inductive IssueStatus where
  | reported
  | acknowledged
  | in_progress
  | resolved
deriving DecidableEq, Repr

/-- The `Issue` pydantic model from `main.py` (fields only; the two
range validators are enforced where pydantic runs them, at construction
inside `report_issue`). -/
structure Issue where
  id : String
  category : IssueCategory
  description : String
  latitude : Rat
  longitude : Rat
  photo_filename : Option String
  audio_filename : Option String
  video_filename : Option String
  ai_analysis : Option String
  status : IssueStatus
  created_at : Rat
  updated_at : Rat
  user_name : Option String
  user_email : Option String
  user_avatar : Option String
deriving DecidableEq, Repr

/-- Decoded JWT payload: the three claims `report_issue` reads
(`payload.get("name")`, `payload.get("email")`, `payload.get("picture")`). -/
structure TokenPayload where
  name : Option String
  email : Option String
  picture : Option String
deriving DecidableEq, Repr

/-- An uploaded file; only the declared filename matters to the core. -/
structure UploadFile where
  filename : String
deriving DecidableEq, Repr

/-- The decoded form payload plus cookie of `POST /issues`.  `category` is
typed because FastAPI rejects a non-enum category at request parsing,
before the handler body runs. -/
structure ReportRequest where
  category : IssueCategory
  description : String
  latitude : Rat
  longitude : Rat
  photo : Option UploadFile
  audio : Option UploadFile
  video : Option UploadFile
  access_token : Option String
deriving DecidableEq, Repr

/-- Error outcomes of the handlers.  The three 401 rejections of
`report_issue` are kept apart; `invalidAttachmentType` carries the
`HTTPException` detail string; `invalidLocation` stands for the pydantic
`ValueError` raised by the latitude/longitude validators at `Issue(...)`
construction; `notFound` is the 404 of `update_status`. -/
inductive ApiError where
  | notAuthenticated
  | invalidToken
  | incompleteUserInfo
  | invalidAttachmentType (detail : String)
  | invalidLocation
  | notFound
deriving DecidableEq, Repr

/-- HTTP status code each error surfaces as (an uncaught pydantic
`ValidationError` becomes a 500 response). -/
def statusCode : ApiError → Nat
  | .notAuthenticated => 401
  | .invalidToken => 401
  | .incompleteUserInfo => 401
  | .invalidAttachmentType _ => 400
  | .invalidLocation => 500
  | .notFound => 404

/-- Mutable server state: the `issues_db` dict (insertion-ordered,
unique keys) and the set of files persisted under `UPLOAD_DIR`. -/
structure ServerState where
  issues_db : List (String × Issue)
  files : List String
deriving DecidableEq, Repr

/-- `d.get(k)` on a Python dict (unique keys). -/
def dictGet? {κ α : Type} [BEq κ] : List (κ × α) → κ → Option α
  | [], _ => none
  | (k', v) :: rest, k => if k' == k then some v else dictGet? rest k

/-- `d[k] = v` on a Python dict: update in place if the key exists,
else append (dicts preserve insertion order). -/
def dictSet {κ α : Type} [BEq κ] : List (κ × α) → κ → α → List (κ × α)
  | [], k, v => [(k, v)]
  | (k', v') :: rest, k, v =>
    if k' == k then (k, v) :: rest else (k', v') :: dictSet rest k v

/-- `d[k] = d.get(k, 0) + 1` on a Python dict (also the behaviour of
`defaultdict(int)` under `d[k] += 1`). -/
def dictIncr {κ : Type} [BEq κ] : List (κ × Nat) → κ → List (κ × Nat)
  | [], k => [(k, 1)]
  | (k', n) :: rest, k =>
    if k' == k then (k', n + 1) :: rest else (k', n) :: dictIncr rest k

/-- Python's `str.split(".")` on the character list of the string:
always returns at least one (possibly empty) chunk. -/
def splitOnDot : List Char → List (List Char)
  | [] => [[]]
  | c :: cs =>
    match splitOnDot cs with
    | [] => [[c]]
    | r :: rs => if c = '.' then [] :: r :: rs else (c :: r) :: rs

/-- `filename.split(".")[-1]`, as used for the stored extension
(not lower-cased there). -/
def file_ext (filename : String) : String :=
  String.mk ((splitOnDot filename.toList).getLastD [])

/-- `allowed_file` from `main.py`:
`'.' in filename and filename.split(".")[-1].lower() in allowed_exts`. -/
def allowed_file (filename : String) (allowed_exts : List String) : Bool :=
  filename.toList.contains '.' &&
    allowed_exts.contains
      (String.mk (((splitOnDot filename.toList).getLastD []).map Char.toLower))

set_option linter.unusedVariables false in
/-- `analyze_photo_ai` from `main.py`: a stub returning a constant. -/
def analyze_photo_ai (file_path : String) : String :=
  "AI: Detected potential infrastructure issue—please verify."

/-- Python truthiness of an optional string (`None` and `""` are falsy),
as used by `if not (user_name and user_email and user_avatar)`. -/
def truthy : Option String → Bool
  | none => false
  | some s => !s.isEmpty

def imageExts : List String := ["jpg", "jpeg", "png", "gif", "bmp"]
def audioExts : List String := ["mp3", "wav", "ogg", "webm"]
def videoExts : List String := ["mp4", "webm", "mov", "avi", "mkv"]

/-- One attachment block of `report_issue`: reject a bad extension with
the 400 detail string, otherwise persist `f"{issue_id}_{kind}.{ext}"`
and return the stored filename together with the updated file list. -/
def validate_attachment (kind detail : String) (exts : List String)
    (issue_id : String) (file : Option UploadFile) (files : List String) :
    Except ApiError (Option String × List String) :=
  match file with
  | none => .ok (none, files)
  | some f =>
    if allowed_file f.filename exts then
      let fn := issue_id ++ "_" ++ kind ++ "." ++ file_ext f.filename
      .ok (some fn, files ++ [fn])
    else
      .error (.invalidAttachmentType detail)

/-- `report_issue` (`POST /issues`), lines 92–176 of `main.py`: cookie
check, JWT decode, completeness check on the three identity claims, then
the photo, audio and video blocks in that order (each persists its file
as soon as its own extension passes), then `Issue(...)` construction,
where pydantic runs the latitude/longitude range validators, and finally
the `issues_db[issue_id] = issue_obj` insert. -/
def report_issue (jwtDecode : String → Option TokenPayload)
    (issue_id : String) (now : Rat) (req : ReportRequest) (st : ServerState) :
    Except ApiError Issue × ServerState :=
  match req.access_token with
  | none => (.error .notAuthenticated, st)
  | some tok =>
    match jwtDecode tok with
    | none => (.error .invalidToken, st)
    | some payload =>
      if !(truthy payload.name && truthy payload.email && truthy payload.picture) then
        (.error .incompleteUserInfo, st)
      else
        match validate_attachment "photo" "Photo must be an image file"
            imageExts issue_id req.photo st.files with
        | .error e => (.error e, st)
        | .ok (photo_filename, files1) =>
          match validate_attachment "audio" "Audio must be a valid audio file"
              audioExts issue_id req.audio files1 with
          | .error e => (.error e, { st with files := files1 })
          | .ok (audio_filename, files2) =>
            match validate_attachment "video" "Video must be a valid video file"
                videoExts issue_id req.video files2 with
            | .error e => (.error e, { st with files := files2 })
            | .ok (video_filename, files3) =>
              if req.latitude < -90 ∨ req.latitude > 90 then
                (.error .invalidLocation, { st with files := files3 })
              else if req.longitude < -180 ∨ req.longitude > 180 then
                (.error .invalidLocation, { st with files := files3 })
              else
                let issue : Issue :=
                  { id := issue_id
                    category := req.category
                    description := req.description
                    latitude := req.latitude
                    longitude := req.longitude
                    photo_filename := photo_filename
                    audio_filename := audio_filename
                    video_filename := video_filename
                    ai_analysis :=
                      photo_filename.map (fun fn => analyze_photo_ai ("/tmp/" ++ fn))
                    status := IssueStatus.reported
                    created_at := now
                    updated_at := now
                    user_name := payload.name
                    user_email := payload.email
                    user_avatar := payload.picture }
                (.ok issue,
                 { st with
                     issues_db := dictSet st.issues_db issue_id issue
                     files := files3 })

/-- `list_issues` (`GET /issues`), lines 178–188: sequential optional
filters over `issues_db.values()` (every enum member is truthy in
Python, so `if status:` is exactly a `None` test). -/
def list_issues (status : Option IssueStatus) (category : Option IssueCategory)
    (st : ServerState) : List Issue :=
  let results := st.issues_db.map Prod.snd
  let results :=
    match status with
    | none => results
    | some s => results.filter (fun i => i.status == s)
  match category with
  | none => results
  | some c => results.filter (fun i => i.category == c)

/-- `update_status` (`PATCH /issues/-issue_id-/status`), lines 190–198:
404 when the id is absent, otherwise mutate `status` and `updated_at`
of the stored record and re-store it under the same key. -/
def update_status (now : Rat) (issue_id : String) (status_update : IssueStatus)
    (st : ServerState) : Except ApiError Issue × ServerState :=
  match dictGet? st.issues_db issue_id with
  | none => (.error .notFound, st)
  | some issue =>
    let issue' := { issue with status := status_update, updated_at := now }
    (.ok issue', { st with issues_db := dictSet st.issues_db issue_id issue' })

/-- The JSON object returned by `GET /analytics/summary`. -/
structure Summary where
  total_issues : Nat
  issues_by_category : List (IssueCategory × Nat)
  issues_by_status : List (IssueStatus × Nat)
  average_resolution_time_seconds : Option Rat
deriving DecidableEq, Repr

/-- The loop body of `analytics_summary`: update both count dicts for
this issue and, when it is resolved with a strictly positive
`updated_at - created_at` delta, append that delta. -/
def summaryStep
    (a : List (IssueCategory × Nat) × List (IssueStatus × Nat) × List Rat)
    (issue : Issue) :
    List (IssueCategory × Nat) × List (IssueStatus × Nat) × List Rat :=
  let by_category := dictIncr a.1 issue.category
  let by_status := dictIncr a.2.1 issue.status
  let response_times :=
    if issue.status = IssueStatus.resolved then
      let delta := issue.updated_at - issue.created_at
      if delta > 0 then a.2.2 ++ [delta] else a.2.2
    else a.2.2
  (by_category, by_status, response_times)

/-- `analytics_summary` (`GET /analytics/summary`), lines 200–219: one
pass over `issues_db.values()` accumulating the two count dicts and the
list of positive resolution deltas of resolved issues; the average is
`None` when that list is empty. -/
def analytics_summary (st : ServerState) : Summary :=
  let acc := (st.issues_db.map Prod.snd).foldl summaryStep ([], [], [])
  { total_issues := st.issues_db.length
    issues_by_category := acc.1
    issues_by_status := acc.2.1
    average_resolution_time_seconds :=
      if acc.2.2.isEmpty then none
      else some (acc.2.2.sum / (acc.2.2.length : Rat)) }

/-! ### Derived predicates used to state the contracts -/

/-- The authentication gate of `report_issue` passes: a cookie is
present, it decodes, and all three identity claims are truthy. -/
def authOk (jwtDecode : String → Option TokenPayload) (req : ReportRequest) : Bool :=
  match req.access_token with
  | none => false
  | some tok =>
    match jwtDecode tok with
    | none => false
    | some payload =>
      truthy payload.name && truthy payload.email && truthy payload.picture

/-- Every attachment present in the request passes its extension
allow-list. -/
def attachOk (req : ReportRequest) : Bool :=
  (match req.photo with
   | none => true
   | some f => allowed_file f.filename imageExts) &&
  (match req.audio with
   | none => true
   | some f => allowed_file f.filename audioExts) &&
  (match req.video with
   | none => true
   | some f => allowed_file f.filename videoExts)

/-- The request's coordinates fall outside the valid geographic ranges
checked by the two pydantic validators. -/
def locBad (req : ReportRequest) : Prop :=
  req.latitude < -90 ∨ req.latitude > 90 ∨
  req.longitude < -180 ∨ req.longitude > 180

instance (req : ReportRequest) : Decidable (locBad req) := by
  unfold locBad
  infer_instance

/-- The request carries no decodable token, or the decoded payload is
missing one of the `name`/`email`/`picture` claims. -/
def lacksIdentity (jwtDecode : String → Option TokenPayload)
    (req : ReportRequest) : Prop :=
  req.access_token = none ∨
  (∃ tok, req.access_token = some tok ∧ jwtDecode tok = none) ∨
  (∃ tok p, req.access_token = some tok ∧ jwtDecode tok = some p ∧
    (p.name = none ∨ p.email = none ∨ p.picture = none))

/-- Number of stored issues whose category is `c`. -/
def countCat (st : ServerState) (c : IssueCategory) : Nat :=
  ((st.issues_db.map Prod.snd).map (fun i => i.category)).count c

/-- Number of stored issues whose status is `s`. -/
def countStatus (st : ServerState) (s : IssueStatus) : Nat :=
  ((st.issues_db.map Prod.snd).map (fun i => i.status)).count s

/-- Resolution deltas of the stored issues that are resolved with a
strictly positive `updated_at - created_at`, in insertion order. -/
def qualifyingDeltas (st : ServerState) : List Rat :=
  ((st.issues_db.map Prod.snd).filter
    (fun i => i.status == IssueStatus.resolved &&
      decide (i.updated_at - i.created_at > 0))).map
    (fun i => i.updated_at - i.created_at)

end Civic

deriving instance DecidableEq for Except

namespace Civic

/-! ### Concrete fixtures used in scenarios and witnesses -/

/-- A JWT decoder granting every token a complete identity. -/
def jdOk : String → Option TokenPayload :=
  fun _ => some ⟨some "Alice", some "alice@example.com", some "avatar.png"⟩

/-- The empty server state. -/
def st0 : ServerState := ⟨[], []⟩

/-- A fully valid attachment-free report request. -/
def reqBase : ReportRequest :=
  { category := .pothole
    description := "pothole on 5th"
    latitude := 40
    longitude := -73
    photo := none
    audio := none
    video := none
    access_token := some "tok" }

/-- A stored issue with the given id, category, status and timestamps. -/
def mkIssue (iid : String) (c : IssueCategory) (s : IssueStatus)
    (t0 t1 : Rat) : Issue :=
  { id := iid
    category := c
    description := "d"
    latitude := 0
    longitude := 0
    photo_filename := none
    audio_filename := none
    video_filename := none
    ai_analysis := none
    status := s
    created_at := t0
    updated_at := t1
    user_name := some "n"
    user_email := some "e"
    user_avatar := some "p" }

/-- The Issue produced by a successful `reqBase` submission with
`issue_id = "id1"` and `now = 0`. -/
def issueBase : Issue :=
  { id := "id1"
    category := .pothole
    description := "pothole on 5th"
    latitude := 40
    longitude := -73
    photo_filename := none
    audio_filename := none
    video_filename := none
    ai_analysis := none
    status := .reported
    created_at := 0
    updated_at := 0
    user_name := some "Alice"
    user_email := some "alice@example.com"
    user_avatar := some "avatar.png" }

/-- `reqBase` with a photo whose filename has a disallowed extension. -/
def reqXexe : ReportRequest := { reqBase with photo := some ⟨"x.exe"⟩ }

/-- `reqBase` with an out-of-range latitude and a valid photo. -/
def reqLatPhoto : ReportRequest :=
  { reqBase with latitude := 95, photo := some ⟨"a.jpg"⟩ }

/-- `reqBase` with an out-of-range latitude and a disallowed photo. -/
def reqLatXexe : ReportRequest :=
  { reqBase with latitude := 95, photo := some ⟨"x.exe"⟩ }

/-- `reqBase` with only an out-of-range latitude. -/
def reqLat95 : ReportRequest := { reqBase with latitude := 95 }

/-- A request with no access-token cookie (and otherwise-invalid photo
and latitude, to exhibit that the 401 check runs first). -/
def reqNoTok : ReportRequest :=
  { reqBase with access_token := none, latitude := 95, photo := some ⟨"x.exe"⟩ }

/-- State holding one freshly reported pothole issue under key `"a"`. -/
def stA : ServerState := ⟨[("a", mkIssue "a" .pothole .reported 0 0)], []⟩

/-- State holding one resolved issue under key `"r"`. -/
def stR : ServerState := ⟨[("r", mkIssue "r" .water .resolved 0 3)], []⟩

def exR1 : Issue := mkIssue "a" .pothole .reported 0 0
def exR2 : Issue := mkIssue "b" .pothole .in_progress 0 0
def exR3 : Issue := mkIssue "c" .garbage .reported 0 0

/-- Three issues with categories pothole, pothole, garbage, in that
insertion order. -/
def ex3 : ServerState := ⟨[("a", exR1), ("b", exR2), ("c", exR3)], []⟩

/-- State with a single pothole issue (for the analytics counts). -/
def exC2 : ServerState := ⟨[("a", mkIssue "a" .pothole .reported 0 0)], []⟩

/-- Two resolved issues with resolution deltas 10 and 0 seconds. -/
def exC3 : ServerState :=
  ⟨[("a", mkIssue "a" .pothole .resolved 0 10),
    ("b", mkIssue "b" .garbage .resolved 5 5)], []⟩

/-! ### Library lemmas about the dict model -/

theorem dictGet?_dictSet_self {κ α : Type} [BEq κ] [LawfulBEq κ]
    (d : List (κ × α)) (k : κ) (v : α) :
    dictGet? (dictSet d k v) k = some v := by
  induction d with
  | nil => simp [dictSet, dictGet?]
  | cons p rest ih =>
    obtain ⟨k', v'⟩ := p
    by_cases h : k' == k
    · simp [dictSet, dictGet?, h]
    · simp only [dictSet, dictGet?, h, if_neg]
      simp [h, ih]

theorem dictGet?_dictIncr {κ : Type} [BEq κ] [LawfulBEq κ]
    (d : List (κ × Nat)) (k c : κ) :
    dictGet? (dictIncr d k) c =
      if c == k then some ((dictGet? d k).getD 0 + 1) else dictGet? d c := by
  induction d with
  | nil =>
    by_cases h : c = k
    · subst h; simp [dictIncr, dictGet?]
    · simp [dictIncr, dictGet?, h, Ne.symm h]
  | cons p rest ih =>
    obtain ⟨k', v⟩ := p
    by_cases h1 : k' = k
    · subst h1
      by_cases h2 : c = k'
      · subst h2; simp [dictIncr, dictGet?]
      · simp [dictIncr, dictGet?, h2, Ne.symm h2]
    · by_cases h2 : c = k
      · subst h2
        simp [dictIncr, dictGet?, h1, Ne.symm h1, ih]
      · by_cases h3 : k' = c
        · subst h3
          simp [dictIncr, dictGet?, h1, h2, ih]
        · simp [dictIncr, dictGet?, h1, h2, h3, ih]

theorem dictGet?_foldl_dictIncr {κ : Type} [BEq κ] [LawfulBEq κ]
    (ks : List κ) (d : List (κ × Nat)) (c : κ) :
    dictGet? (ks.foldl dictIncr d) c =
      if (dictGet? d c).isNone ∧ ks.count c = 0 then none
      else some ((dictGet? d c).getD 0 + ks.count c) := by
  induction ks generalizing d with
  | nil => cases h : dictGet? d c <;> simp [h]
  | cons k ks ih =>
    rw [List.foldl_cons, ih, dictGet?_dictIncr]
    by_cases h : c = k
    · subst h
      simp only [beq_self_eq_true, if_pos, List.count_cons_self]
      cases hd : dictGet? d c <;> simp [hd] <;> omega
    · have hne : (c == k) = false := by simp [h]
      simp only [hne, Bool.false_eq_true, if_neg, List.count_cons_of_ne h]
      rfl

theorem truthy_isSome {o : Option String} (h : truthy o = true) :
    o.isSome = true := by
  cases o <;> simp [truthy] at *

/-! ### Case analysis of `report_issue`

Every run either fails, leaving `issues_db` untouched, or succeeds and
inserts exactly the Issue it returns. -/

theorem report_issue_main (jd : String → Option TokenPayload) (iid : String)
    (now : Rat) (req : ReportRequest) (st : ServerState) :
    (∃ e, (report_issue jd iid now req st).1 = .error e ∧
       ((report_issue jd iid now req st).2).issues_db = st.issues_db) ∨
    (∃ (payload : TokenPayload) (issue : Issue),
       (report_issue jd iid now req st).1 = .ok issue ∧
       issue.id = iid ∧ issue.status = .reported ∧
       issue.created_at = now ∧ issue.updated_at = now ∧
       issue.user_name = payload.name ∧ issue.user_email = payload.email ∧
       issue.user_avatar = payload.picture ∧
       (truthy payload.name && truthy payload.email && truthy payload.picture) = true ∧
       ¬ locBad req ∧
       ((report_issue jd iid now req st).2).issues_db =
         dictSet st.issues_db iid issue) := by
  unfold report_issue
  split
  · exact Or.inl ⟨_, rfl, rfl⟩
  split
  · exact Or.inl ⟨_, rfl, rfl⟩
  split
  · exact Or.inl ⟨_, rfl, rfl⟩
  rename_i htruthy
  split
  · exact Or.inl ⟨_, rfl, rfl⟩
  split
  · exact Or.inl ⟨_, rfl, rfl⟩
  split
  · exact Or.inl ⟨_, rfl, rfl⟩
  split
  · exact Or.inl ⟨_, rfl, rfl⟩
  rename_i hlat
  split
  · exact Or.inl ⟨_, rfl, rfl⟩
  rename_i hlon
  refine Or.inr ⟨_, _, rfl, rfl, rfl, rfl, rfl, rfl, rfl, rfl, ?_, ?_, rfl⟩
  · simpa using htruthy
  · simp only [locBad]
    push_neg at hlat hlon ⊢
    exact ⟨hlat.1, hlat.2, hlon.1, hlon.2⟩

theorem report_issue_ok_spec (jd : String → Option TokenPayload) (iid : String)
    (now : Rat) (req : ReportRequest) (st : ServerState) (issue : Issue)
    (h : (report_issue jd iid now req st).1 = .ok issue) :
    issue.id = iid ∧ issue.status = .reported ∧
    issue.created_at = now ∧ issue.updated_at = now ∧
    issue.user_name.isSome = true ∧ issue.user_email.isSome = true ∧
    issue.user_avatar.isSome = true ∧ ¬ locBad req ∧
    ((report_issue jd iid now req st).2).issues_db =
      dictSet st.issues_db iid issue := by
  rcases report_issue_main jd iid now req st with ⟨e, he, _⟩ |
    ⟨p, i, hi, h1, h2, h3, h4, h5, h6, h7, h8, h9, h10⟩
  · rw [h] at he; cases he
  · rw [h] at hi
    injection hi with hii
    subst hii
    obtain ⟨⟨hn, he'⟩, hp⟩ : (truthy p.name = true ∧ truthy p.email = true) ∧
        truthy p.picture = true := by simpa using h8
    exact ⟨h1, h2, h3, h4, h5 ▸ truthy_isSome hn, h6 ▸ truthy_isSome he',
      h7 ▸ truthy_isSome hp, h9, h10⟩

theorem report_issue_error_db (jd : String → Option TokenPayload) (iid : String)
    (now : Rat) (req : ReportRequest) (st : ServerState) (e : ApiError)
    (h : (report_issue jd iid now req st).1 = .error e) :
    ((report_issue jd iid now req st).2).issues_db = st.issues_db := by
  rcases report_issue_main jd iid now req st with ⟨e', _, hdb⟩ |
    ⟨p, i, hi, _⟩
  · exact hdb
  · rw [h] at hi; cases hi

theorem report_issue_locBad_error (jd : String → Option TokenPayload)
    (iid : String) (now : Rat) (req : ReportRequest) (st : ServerState)
    (h : locBad req) :
    ∃ e, (report_issue jd iid now req st).1 = .error e := by
  rcases report_issue_main jd iid now req st with ⟨e, he, _⟩ |
    ⟨p, i, hi, h1, h2, h3, h4, h5, h6, h7, h8, h9, h10⟩
  · exact ⟨e, he⟩
  · exact absurd h h9

theorem report_issue_auth_fail (jd : String → Option TokenPayload)
    (iid : String) (now : Rat) (req : ReportRequest) (st : ServerState)
    (h : authOk jd req = false) :
    ∃ e, report_issue jd iid now req st = (.error e, st) ∧ statusCode e = 401 := by
  rcases hq : req.access_token with _ | tok
  · exact ⟨.notAuthenticated, by simp [report_issue, hq], rfl⟩
  · rcases hj : jd tok with _ | payload
    · exact ⟨.invalidToken, by simp [report_issue, hq, hj], rfl⟩
    · have hb : (truthy payload.name && truthy payload.email &&
          truthy payload.picture) = false := by
        simpa [authOk, hq, hj] using h
      exact ⟨.incompleteUserInfo, by simp [report_issue, hq, hj, hb], rfl⟩

theorem validate_attachment_ok (kind detail : String) (exts : List String)
    (iid : String) (file : Option UploadFile) (files : List String)
    (h : (match file with
          | none => true
          | some f => allowed_file f.filename exts) = true) :
    ∃ fn fs, validate_attachment kind detail exts iid file files = .ok (fn, fs) := by
  rcases file with _ | f
  · exact ⟨none, files, rfl⟩
  · simp only at h
    exact ⟨some (iid ++ "_" ++ kind ++ "." ++ file_ext f.filename),
      files ++ [iid ++ "_" ++ kind ++ "." ++ file_ext f.filename],
      by simp [validate_attachment, h]⟩

theorem report_issue_locBad_invalidLocation (jd : String → Option TokenPayload)
    (iid : String) (now : Rat) (req : ReportRequest) (st : ServerState)
    (hauth : authOk jd req = true) (hatt : attachOk req = true)
    (hloc : locBad req) :
    (report_issue jd iid now req st).1 = .error .invalidLocation := by
  rcases hq : req.access_token with _ | tok
  · simp [authOk, hq] at hauth
  rcases hj : jd tok with _ | payload
  · simp [authOk, hq, hj] at hauth
  have hb : (truthy payload.name && truthy payload.email &&
      truthy payload.picture) = true := by
    simpa [authOk, hq, hj] using hauth
  obtain ⟨⟨hp, ha⟩, hv⟩ : ((match req.photo with
      | none => true
      | some f => allowed_file f.filename imageExts) = true ∧
      (match req.audio with
      | none => true
      | some f => allowed_file f.filename audioExts) = true) ∧
      (match req.video with
      | none => true
      | some f => allowed_file f.filename videoExts) = true := by
    simpa [attachOk] using hatt
  obtain ⟨pfn, pfs, hpv⟩ := validate_attachment_ok "photo"
    "Photo must be an image file" imageExts iid req.photo st.files hp
  obtain ⟨afn, afs, hav⟩ := validate_attachment_ok "audio"
    "Audio must be a valid audio file" audioExts iid req.audio pfs ha
  obtain ⟨vfn, vfs, hvv⟩ := validate_attachment_ok "video"
    "Video must be a valid video file" videoExts iid req.video afs hv
  by_cases hlat : req.latitude < -90 ∨ req.latitude > 90
  · simp [report_issue, hq, hj, hb, hpv, hav, hvv, hlat]
  · have hlon : req.longitude < -180 ∨ req.longitude > 180 := by
      rcases hloc with h | h | h | h
      · exact absurd (Or.inl h) hlat
      · exact absurd (Or.inr h) hlat
      · exact Or.inl h
      · exact Or.inr h
    simp [report_issue, hq, hj, hb, hpv, hav, hvv, hlat, hlon]

theorem authOk_false_of_lacks (jd : String → Option TokenPayload)
    (req : ReportRequest) (h : lacksIdentity jd req) : authOk jd req = false := by
  rcases h with h | ⟨tok, h1, h2⟩ | ⟨tok, p, h1, h2, h3⟩
  · simp [authOk, h]
  · simp [authOk, h1, h2]
  · rcases h3 with h3 | h3 | h3 <;> simp [authOk, h1, h2, truthy, h3]

/-! ### Characterizing the analytics fold -/

theorem foldl_summaryStep_cat (issues : List Issue)
    (a : List (IssueCategory × Nat) × List (IssueStatus × Nat) × List Rat) :
    (issues.foldl summaryStep a).1 =
      (issues.map (fun i => i.category)).foldl dictIncr a.1 := by
  induction issues generalizing a with
  | nil => rfl
  | cons i is ih =>
    simp only [List.foldl_cons, List.map_cons]
    rw [ih]
    rfl

theorem foldl_summaryStep_status (issues : List Issue)
    (a : List (IssueCategory × Nat) × List (IssueStatus × Nat) × List Rat) :
    (issues.foldl summaryStep a).2.1 =
      (issues.map (fun i => i.status)).foldl dictIncr a.2.1 := by
  induction issues generalizing a with
  | nil => rfl
  | cons i is ih =>
    simp only [List.foldl_cons, List.map_cons]
    rw [ih]
    rfl

theorem foldl_summaryStep_resp (issues : List Issue)
    (a : List (IssueCategory × Nat) × List (IssueStatus × Nat) × List Rat) :
    (issues.foldl summaryStep a).2.2 =
      a.2.2 ++ (issues.filter (fun i => i.status == IssueStatus.resolved &&
          decide (i.updated_at - i.created_at > 0))).map
        (fun i => i.updated_at - i.created_at) := by
  induction issues generalizing a with
  | nil => simp
  | cons i is ih =>
    simp only [List.foldl_cons, List.filter_cons]
    rw [ih]
    by_cases hs : i.status = IssueStatus.resolved
    · by_cases hd : i.updated_at - i.created_at > 0
      · simp [summaryStep, hs, hd]
      · simp [summaryStep, hs, hd]
    · simp [summaryStep, hs]

theorem analytics_by_category_spec (st : ServerState) (c : IssueCategory) :
    dictGet? (analytics_summary st).issues_by_category c =
      if countCat st c = 0 then none else some (countCat st c) := by
  have h := dictGet?_foldl_dictIncr
    ((st.issues_db.map Prod.snd).map (fun i => i.category)) [] c
  simp only [dictGet?, Option.isNone_none, true_and, Option.getD_none,
    Nat.zero_add] at h
  simpa [analytics_summary, foldl_summaryStep_cat, countCat] using h

theorem analytics_by_status_spec (st : ServerState) (s : IssueStatus) :
    dictGet? (analytics_summary st).issues_by_status s =
      if countStatus st s = 0 then none else some (countStatus st s) := by
  have h := dictGet?_foldl_dictIncr
    ((st.issues_db.map Prod.snd).map (fun i => i.status)) [] s
  simp only [dictGet?, Option.isNone_none, true_and, Option.getD_none,
    Nat.zero_add] at h
  simpa [analytics_summary, foldl_summaryStep_status, countStatus] using h

theorem analytics_avg_spec (st : ServerState) :
    (analytics_summary st).average_resolution_time_seconds =
      if qualifyingDeltas st = [] then none
      else some ((qualifyingDeltas st).sum / ((qualifyingDeltas st).length : Rat)) := by
  have hq : ((st.issues_db.map Prod.snd).foldl summaryStep
      (([], [], []) : List (IssueCategory × Nat) × List (IssueStatus × Nat) ×
        List Rat)).2.2 = qualifyingDeltas st := by
    rw [foldl_summaryStep_resp]
    rfl
  unfold analytics_summary
  dsimp only
  rw [hq]
  by_cases h : qualifyingDeltas st = [] <;> simp [h, List.isEmpty_iff]

theorem qualifyingDeltas_exC3 : qualifyingDeltas exC3 = [10] := by
  unfold qualifyingDeltas exC3 mkIssue
  norm_num [List.filter_cons]

/-! ### The two optional filters of `list_issues` form one conjunction -/

theorem list_issues_conj (s? : Option IssueStatus) (c? : Option IssueCategory)
    (st : ServerState) :
    list_issues s? c? st =
      (st.issues_db.map Prod.snd).filter
        (fun i =>
          (match s? with | none => true | some s => i.status == s) &&
          (match c? with | none => true | some c => i.category == c)) := by
  rcases s? with _ | s <;> rcases c? with _ | c <;>
    simp [list_issues, List.filter_filter]
  exact List.filter_congr fun a _ => by rw [Bool.and_comm]

/-! ## The claims -/

/-- Claim C1, counterexample: a submission with a valid photo `a.jpg`
but latitude 95 fails validation with the location error, yet the photo
file has already been persisted — so it is not the case that every
validation error is detected before any attachment file is persisted. -/
theorem C1_cex_photo_persisted_before_location_check :
    (report_issue jdOk "id1" 0 reqLatPhoto st0).1 = .error .invalidLocation ∧
    (report_issue jdOk "id1" 0 reqLatPhoto st0).2.files = ["id1_photo.jpg"] := by
  decide

/-- Claim C1, amended: no validation failure ever writes to the
repository (no partial Issue is created), and submitting a photo named
`x.exe` fails with the invalid-attachment error with no file persisted;
attachments validated earlier in the handler, however, are persisted
before later validation (audio/video extension, location bounds) runs. -/
theorem C1_no_partial_issue_and_xexe :
    (∀ (jd : String → Option TokenPayload) (iid : String) (now : Rat)
       (req : ReportRequest) (st : ServerState) (e : ApiError),
       (report_issue jd iid now req st).1 = .error e →
       ((report_issue jd iid now req st).2).issues_db = st.issues_db) ∧
    ((report_issue jdOk "id1" 0 reqXexe st0).1 =
       .error (.invalidAttachmentType "Photo must be an image file") ∧
     (report_issue jdOk "id1" 0 reqXexe st0).2 = st0) :=
  ⟨report_issue_error_db, by decide, by decide⟩

/-- Witness for C1: the failing `reqLatPhoto` call leaves the (empty)
repository unchanged. -/
theorem C1_no_partial_issue_and_xexe_witness :
    ((report_issue jdOk "id9" 0 reqLatPhoto st0).2).issues_db =
      st0.issues_db :=
  C1_no_partial_issue_and_xexe.1 jdOk "id9" 0 reqLatPhoto st0
    ApiError.invalidLocation (by decide)

/-- Claim C2, counterexample: with one stored pothole issue the summary
has no `streetlight` entry in `issues_by_category` and no `acknowledged`
entry in `issues_by_status` — zero-count members of the enumerations are
absent, not mapped to 0. -/
theorem C2_cex_zero_count_keys_absent :
    (analytics_summary exC2).total_issues = 1 ∧
    dictGet? (analytics_summary exC2).issues_by_category
      IssueCategory.streetlight = none ∧
    dictGet? (analytics_summary exC2).issues_by_status
      IssueStatus.acknowledged = none := by
  decide

/-- Claim C2, amended: `issues_by_category` maps exactly the categories
occurring among stored issues to their (positive) counts — a category
with zero occurrences has no entry — and `issues_by_status` likewise. -/
theorem C2_counts_present_keys_only (st : ServerState) (c : IssueCategory)
    (s : IssueStatus) :
    dictGet? (analytics_summary st).issues_by_category c =
      (if countCat st c = 0 then none else some (countCat st c)) ∧
    dictGet? (analytics_summary st).issues_by_status s =
      (if countStatus st s = 0 then none else some (countStatus st s)) :=
  ⟨analytics_by_category_spec st c, analytics_by_status_spec st s⟩

/-- Claim C3: the summary's `average_resolution_time_seconds` is the
arithmetic mean of `updated_at - created_at` over exactly the resolved
issues with strictly positive delta, and absent when no issue qualifies;
concretely, resolved deltas of 10 and 0 seconds average to exactly 10. -/
theorem C3_average_resolution_mean :
    (∀ st : ServerState,
       (analytics_summary st).average_resolution_time_seconds =
         if qualifyingDeltas st = [] then none
         else some ((qualifyingDeltas st).sum /
           ((qualifyingDeltas st).length : Rat))) ∧
    (analytics_summary exC3).average_resolution_time_seconds = some 10 := by
  refine ⟨analytics_avg_spec, ?_⟩
  rw [analytics_avg_spec, qualifyingDeltas_exC3]
  norm_num

/-- Claim C4: every successful submission returns an Issue with
`created_at = updated_at` and status `reported`, and that same Issue is
stored in the repository under its id. -/
theorem C4_initial_issue_state (jd : String → Option TokenPayload)
    (iid : String) (now : Rat) (req : ReportRequest) (st : ServerState)
    (issue : Issue) (h : (report_issue jd iid now req st).1 = .ok issue) :
    issue.created_at = issue.updated_at ∧ issue.status = .reported ∧
    dictGet? ((report_issue jd iid now req st).2).issues_db issue.id =
      some issue := by
  obtain ⟨h1, h2, h3, h4, _, _, _, _, h9⟩ :=
    report_issue_ok_spec jd iid now req st issue h
  refine ⟨h3.trans h4.symm, h2, ?_⟩
  rw [h9, h1, dictGet?_dictSet_self]

/-- Witness for C4 at the concrete valid request `reqBase`. -/
theorem C4_initial_issue_state_witness :
    issueBase.created_at = issueBase.updated_at ∧
    issueBase.status = .reported ∧
    dictGet? ((report_issue jdOk "id1" 0 reqBase st0).2).issues_db
      issueBase.id = some issueBase :=
  C4_initial_issue_state jdOk "id1" 0 reqBase st0 issueBase (by decide)

/-- Claim C5, counterexample: with latitude 95 and a photo named
`x.exe` the submission fails with the attachment error, not with
`InvalidLocation` — so an out-of-range submission does not always fail
with `InvalidLocation` (though it always fails and stores nothing). -/
theorem C5_cex_location_error_preempted :
    locBad reqLatXexe ∧
    (report_issue jdOk "id1" 0 reqLatXexe st0).1 =
      .error (.invalidAttachmentType "Photo must be an image file") ∧
    (report_issue jdOk "id1" 0 reqLatXexe st0).1 ≠ .error .invalidLocation ∧
    ((report_issue jdOk "id1" 0 reqLatXexe st0).2).issues_db = [] := by
  decide

/-- Claim C5, amended: a submission with latitude outside [-90, 90] or
longitude outside [-180, 180] always fails, leaves the repository
cardinality unchanged, and fails with `InvalidLocation` whenever
authentication and the attachment extension checks pass (an earlier
check failing yields that earlier error instead). -/
theorem C5_out_of_range_rejected (jd : String → Option TokenPayload)
    (iid : String) (now : Rat) (req : ReportRequest) (st : ServerState)
    (h : locBad req) :
    (∃ e, (report_issue jd iid now req st).1 = .error e) ∧
    ((report_issue jd iid now req st).2).issues_db.length =
      st.issues_db.length ∧
    (authOk jd req = true → attachOk req = true →
       (report_issue jd iid now req st).1 = .error .invalidLocation) := by
  obtain ⟨e, he⟩ := report_issue_locBad_error jd iid now req st h
  refine ⟨⟨e, he⟩, ?_, fun h1 h2 =>
    report_issue_locBad_invalidLocation jd iid now req st h1 h2 h⟩
  rw [report_issue_error_db jd iid now req st e he]

/-- Witness for C5 at the concrete request with latitude 95. -/
theorem C5_out_of_range_rejected_witness :
    (∃ e, (report_issue jdOk "id1" 0 reqLat95 st0).1 = .error e) ∧
    ((report_issue jdOk "id1" 0 reqLat95 st0).2).issues_db.length =
      st0.issues_db.length ∧
    (authOk jdOk reqLat95 = true → attachOk reqLat95 = true →
       (report_issue jdOk "id1" 0 reqLat95 st0).1 = .error .invalidLocation) :=
  C5_out_of_range_rejected jdOk "id1" 0 reqLat95 st0 (by decide)

/-- Claim C6: a status update on a stored Issue succeeds and changes
only `status` and `updated_at`; every other field of the Issue is
unchanged. -/
theorem C6_update_status_frame
    (st : ServerState) (iid : String) (now : Rat) (s : IssueStatus)
    (issue : Issue) (h : dictGet? st.issues_db iid = some issue) :
    ∃ issue', (update_status now iid s st).1 = .ok issue' ∧
      issue'.id = issue.id ∧ issue'.category = issue.category ∧
      issue'.description = issue.description ∧
      issue'.latitude = issue.latitude ∧ issue'.longitude = issue.longitude ∧
      issue'.photo_filename = issue.photo_filename ∧
      issue'.audio_filename = issue.audio_filename ∧
      issue'.video_filename = issue.video_filename ∧
      issue'.ai_analysis = issue.ai_analysis ∧
      issue'.user_name = issue.user_name ∧
      issue'.user_email = issue.user_email ∧
      issue'.user_avatar = issue.user_avatar ∧
      issue'.created_at = issue.created_at ∧
      issue'.status = s ∧ issue'.updated_at = now := by
  refine ⟨{ issue with status := s, updated_at := now }, ?_, by simp_all⟩
  unfold update_status
  rw [h]

/-- Witness for C6: acknowledging the stored issue `"a"` of `stA`. -/
theorem C6_update_status_frame_witness :
    ∃ issue', (update_status 5 "a" IssueStatus.acknowledged stA).1 =
        .ok issue' ∧
      issue'.id = (mkIssue "a" .pothole .reported 0 0).id ∧
      issue'.category = (mkIssue "a" .pothole .reported 0 0).category ∧
      issue'.description = (mkIssue "a" .pothole .reported 0 0).description ∧
      issue'.latitude = (mkIssue "a" .pothole .reported 0 0).latitude ∧
      issue'.longitude = (mkIssue "a" .pothole .reported 0 0).longitude ∧
      issue'.photo_filename = (mkIssue "a" .pothole .reported 0 0).photo_filename ∧
      issue'.audio_filename = (mkIssue "a" .pothole .reported 0 0).audio_filename ∧
      issue'.video_filename = (mkIssue "a" .pothole .reported 0 0).video_filename ∧
      issue'.ai_analysis = (mkIssue "a" .pothole .reported 0 0).ai_analysis ∧
      issue'.user_name = (mkIssue "a" .pothole .reported 0 0).user_name ∧
      issue'.user_email = (mkIssue "a" .pothole .reported 0 0).user_email ∧
      issue'.user_avatar = (mkIssue "a" .pothole .reported 0 0).user_avatar ∧
      issue'.created_at = (mkIssue "a" .pothole .reported 0 0).created_at ∧
      issue'.status = IssueStatus.acknowledged ∧ issue'.updated_at = 5 :=
  C6_update_status_frame stA "a" 5 IssueStatus.acknowledged
    (mkIssue "a" .pothole .reported 0 0) (by decide)

/-- Claim C7: a status update on an id absent from the repository fails
with the not-found error and leaves the whole server state unchanged. -/
theorem C7_update_status_not_found
    (st : ServerState) (iid : String) (now : Rat) (s : IssueStatus)
    (h : dictGet? st.issues_db iid = none) :
    (update_status now iid s st).1 = .error .notFound ∧
    (update_status now iid s st).2 = st := by
  unfold update_status
  rw [h]
  exact ⟨rfl, rfl⟩

/-- Witness for C7: updating a missing id in the empty state. -/
theorem C7_update_status_not_found_witness :
    (update_status 1 "missing" IssueStatus.resolved st0).1 =
      .error .notFound ∧
    (update_status 1 "missing" IssueStatus.resolved st0).2 = st0 :=
  C7_update_status_not_found st0 "missing" 1 IssueStatus.resolved (by decide)

/-- Claim C8: for any pair of statuses, updating a stored Issue whose
status is `old` to `new` succeeds and sets the status to `new` — no
transition is rejected based on the source state. -/
theorem C8_any_transition_allowed
    (st : ServerState) (iid : String) (now : Rat) (old new : IssueStatus)
    (issue : Issue) (h1 : dictGet? st.issues_db iid = some issue)
    (h2 : issue.status = old) :
    issue.status = old ∧
    ∃ issue', (update_status now iid new st).1 = .ok issue' ∧
      issue'.status = new := by
  refine ⟨h2, ?_⟩
  unfold update_status
  rw [h1]
  exact ⟨_, rfl, rfl⟩

/-- Witness for C8: the backward move resolved → reported on `stR`. -/
theorem C8_any_transition_allowed_witness :
    (mkIssue "r" .water .resolved 0 3).status = IssueStatus.resolved ∧
    ∃ issue', (update_status 7 "r" IssueStatus.reported stR).1 = .ok issue' ∧
      issue'.status = IssueStatus.reported :=
  C8_any_transition_allowed stR "r" 7 IssueStatus.resolved
    IssueStatus.reported (mkIssue "r" .water .resolved 0 3)
    (by decide) (by decide)

/-- Claim C9: `list_issues` applies the present filters as one
conjunctive predicate over the repository values in insertion order;
concretely, filtering `ex3` (categories pothole, pothole, garbage) by
category pothole returns exactly the two pothole issues in insertion
order. -/
theorem C9_list_issues_conjunctive_order :
    (∀ (s? : Option IssueStatus) (c? : Option IssueCategory)
       (st : ServerState),
       list_issues s? c? st =
         (st.issues_db.map Prod.snd).filter
           (fun i =>
             (match s? with | none => true | some s => i.status == s) &&
             (match c? with | none => true | some c => i.category == c))) ∧
    list_issues none (some .pothole) ex3 = [exR1, exR2] :=
  ⟨list_issues_conj, by decide⟩

/-- Claim C10: a submission without a decodable access token, or whose
decoded payload lacks any of name/email/picture, fails with a 401 error
before any validation or persistence (the state is returned untouched);
consequently every Issue a successful submission stores carries all
three reporter-identity fields. -/
theorem C10_auth_gate :
    (∀ (jd : String → Option TokenPayload) (iid : String) (now : Rat)
       (req : ReportRequest) (st : ServerState),
       lacksIdentity jd req →
       ∃ e, report_issue jd iid now req st = (.error e, st) ∧
         statusCode e = 401) ∧
    (∀ (jd : String → Option TokenPayload) (iid : String) (now : Rat)
       (req : ReportRequest) (st : ServerState) (issue : Issue),
       (report_issue jd iid now req st).1 = .ok issue →
       issue.user_name.isSome = true ∧ issue.user_email.isSome = true ∧
       issue.user_avatar.isSome = true) := by
  constructor
  · intro jd iid now req st h
    exact report_issue_auth_fail jd iid now req st
      (authOk_false_of_lacks jd req h)
  · intro jd iid now req st issue h
    obtain ⟨_, _, _, _, h5, h6, h7, _, _⟩ :=
      report_issue_ok_spec jd iid now req st issue h
    exact ⟨h5, h6, h7⟩

/-- Witness for C10: the token-less request (with bad photo and bad
latitude) is rejected 401 with the state untouched, and the issue stored
by the valid `reqBase` call carries all three identity fields. -/
theorem C10_auth_gate_witness :
    (∃ e, report_issue jdOk "id1" 0 reqNoTok st0 = (.error e, st0) ∧
       statusCode e = 401) ∧
    (issueBase.user_name.isSome = true ∧ issueBase.user_email.isSome = true ∧
     issueBase.user_avatar.isSome = true) :=
  ⟨C10_auth_gate.1 jdOk "id1" 0 reqNoTok st0 (Or.inl rfl),
   C10_auth_gate.2 jdOk "id1" 0 reqBase st0 issueBase (by decide)⟩

end Civic
